import Mathlib

/-!
# Verification of the pulumi-numeris component layer

Shallow embedding of the validation, tag-merging and resource-declaration
logic of the repository's component constructors
(`src/components/ec2/sg.py`, `src/components/ec2/ec2.py`,
`src/components/network/vpc.py`, `src/components/lb/alb.py`,
`src/components/lb/tg.py`, `src/components/storage/rds.py`,
`src/components/iam/policy.py`), together with theorems settling the
spec's claims about that logic.

Conventions of the embedding:
* A constructor parameter that may be a not-yet-resolved `pulumi.Output`
  is modelled by `StrOrOutput`; every other string parameter is a plain
  `String`.
* Python dictionaries used as tag maps are modelled as association lists
  (`Tags`), with `dictInsert`/`dictMerge` reproducing the semantics of
  the `{**base, **(tags or {})}` literal (later keys override earlier
  ones, first occurrence position kept).
* Validators raise `ValueError`; this is modelled with
  `Except String Unit`, `.error msg` standing for the raised exception.
-/

set_option autoImplicit false

namespace Numeris

/-- A constructor argument that is either a synchronously known string or
an unresolved `pulumi.Output` (a `Reference` in the spec's vocabulary). -/
inductive StrOrOutput where
  | known (s : String)
  | output
  deriving DecidableEq, Repr

/-- Python `dict[str, str]` modelled as an association list. -/
abbrev Tags := List (String × String)

/-- First value associated to `k`, as Python `d[k]` / `d.get(k)`. -/
def lookupTag : Tags → String → Option String
  | [], _ => none
  | (k', v) :: rest, k => if k' = k then some v else lookupTag rest k

/-- Python dict insertion `d[k] = v`: overrides the value in place when the
key is present, appends at the end otherwise. -/
def dictInsert (d : Tags) (k v : String) : Tags :=
  if d.any (fun p => p.1 = k) then
    d.map (fun p => if p.1 = k then (k, v) else p)
  else
    d ++ [(k, v)]

/-- Python `{**d, **e}`: all of `d`, then each entry of `e` inserted in
order, later entries overriding earlier keys. -/
def dictMerge (d e : Tags) : Tags :=
  e.foldl (fun acc p => dictInsert acc p.1 p.2) d

/-- The regex `^[a-zA-Z0-9-]+$` used by the name validators
(`re.match` anchored on both sides by `^`/`$`). -/
def nameRegexMatches (s : String) : Bool :=
  !s.isEmpty && s.data.all (fun c => c.isAlphanum || c == '-')

/-! ## Security-group ingress rules (`src/components/ec2/sg.py`) -/

/-- One ingress-rule dictionary; `none` fields model absent keys. -/
structure IngressRule where
  security_group_id : Option String
  cidr_block : Option String
  protocol : Option String
  from_port : Option Int
  to_port : Option Int
  deriving DecidableEq, Repr

/-- An element of the `ingress` list: a dictionary, or any non-dict value
(the shape `_format_ingress_rules` rejects). -/
inductive RawRule where
  | dict (r : IngressRule)
  | nonDict
  deriving DecidableEq, Repr

/-- A provider-shaped ingress entry as built by `_format_ingress_rules`:
exactly one of `security_groups` / `cidr_blocks` is populated. -/
structure FormattedRule where
  protocol : String
  from_port : Option Int
  to_port : Option Int
  security_groups : Option (List String)
  cidr_blocks : Option (List String)
  deriving DecidableEq, Repr

/-- Body of the `for` loop of `SecurityGroup._format_ingress_rules` for one
dictionary rule: the `security_group_id` key is tested first (`if`), the
`cidr_block` key second (`elif`), and a dictionary with neither key falls
through without appending anything (`none` here). -/
def formatRule (r : IngressRule) : Option FormattedRule :=
  match r.security_group_id with
  | some g =>
      some { protocol := r.protocol.getD "tcp"
             from_port := r.from_port
             to_port := r.to_port
             security_groups := some [g]
             cidr_blocks := none }
  | none =>
      match r.cidr_block with
      | some c =>
          some { protocol := r.protocol.getD "tcp"
                 from_port := r.from_port
                 to_port := r.to_port
                 security_groups := none
                 cidr_blocks := some [c] }
      | none => none

/-- `SecurityGroup._format_ingress_rules`: formats each dictionary rule in
order and raises `ValueError` at the first non-dictionary rule. -/
def formatIngressRules : List RawRule → Except String (List FormattedRule)
  | [] => .ok []
  | .nonDict :: _ =>
      .error "Ingress rule must be a dictionary containing security_group_id or cidr_block"
  | .dict r :: rest =>
      (formatIngressRules rest).map (fun fs =>
        match formatRule r with
        | some f => f :: fs
        | none => fs)

/-! ## Validators -/

/-- `SecurityGroup._validate_inputs`: returns immediately when `vpc_id` is
a `pulumi.Output`; otherwise checks name non-emptiness, the name regex,
`vpc_id` non-emptiness, and non-emptiness of the two rule lists. -/
def validateSecurityGroup (name : String) (vpc_id : StrOrOutput)
    (ingress : List RawRule) (egress : List Unit) : Except String Unit :=
  match vpc_id with
  | .output => .ok ()
  | .known v =>
    if name.isEmpty then .error "Name must be a non-empty string"
    else if !nameRegexMatches name then
      .error "Name can only contain alphanumeric characters and hyphens"
    else if v.isEmpty then .error "VPC ID must be a non-empty string"
    else if ingress.isEmpty then .error "Ingress rules must be a non-empty list"
    else if egress.isEmpty then .error "Egress rules must be a non-empty list"
    else .ok ()

/-- `EC2Instance._validate_inputs`: returns immediately when `subnet_id`
is a `pulumi.Output`; otherwise validates name (emptiness and regex), AMI,
instance type, subnet id and the security-group id list. -/
def validateEC2Instance (name ami instance_type : String)
    (subnet_id : StrOrOutput) (security_group_ids : List String) :
    Except String Unit :=
  match subnet_id with
  | .output => .ok ()
  | .known s =>
    if name.isEmpty then .error "Name must be a non-empty string"
    else if !nameRegexMatches name then
      .error "Name can only contain alphanumeric characters and hyphens"
    else if ami.isEmpty then .error "AMI must be a non-empty string"
    else if instance_type.isEmpty then .error "Instance type must be a non-empty string"
    else if s.isEmpty then .error "Subnet ID must be a non-empty string"
    else if security_group_ids.isEmpty then
      .error "Security group IDs must be a non-empty list"
    else .ok ()

/-- `RDS._validate_inputs`: returns immediately when `vpc_id` is a
`pulumi.Output`; otherwise requires name, `vpc_id`, the private-subnet-id
list, database name and username to be non-empty (no name regex here). -/
def validateRDS (name : String) (vpc_id : StrOrOutput)
    (private_subnet_ids : List String) (db_name username : String) :
    Except String Unit :=
  match vpc_id with
  | .output => .ok ()
  | .known v =>
    if name.isEmpty then .error "Name must be a non-empty string"
    else if v.isEmpty then .error "VPC ID must be a non-empty string"
    else if private_subnet_ids.isEmpty then
      .error "Private subnet IDs must be a non-empty list"
    else if db_name.isEmpty then .error "Database name must be a non-empty string"
    else if username.isEmpty then .error "Username must be a non-empty string"
    else .ok ()

/-- `ApplicationLoadBalancer._validate_inputs`: returns immediately when
`vpc_id` is a `pulumi.Output`; otherwise requires a non-empty `vpc_id`, a
subnet list of length at least 2, and non-empty certificate ARN and
security-group id (the name is not validated at all). -/
def validateALB (vpc_id : StrOrOutput) (subnets : List String)
    (certificate_arn alb_security_group_id : String) : Except String Unit :=
  match vpc_id with
  | .output => .ok ()
  | .known v =>
    if v.isEmpty then .error "VPC ID must be a non-empty string"
    else if subnets.isEmpty || subnets.length < 2 then
      .error "At least two subnets are required"
    else if certificate_arn.isEmpty then
      .error "Certificate ARN must be a non-empty string"
    else if alb_security_group_id.isEmpty then
      .error "Security Group ID must be a non-empty string"
    else .ok ()

/-- `HostBasedALBTargetGroup._validate_inputs`: returns immediately when
`vpc_id` is a `pulumi.Output`; otherwise requires non-empty listener ARN,
`vpc_id`, host condition and subnet list, and a container port in
`1..65535`. -/
def validateTargetGroup (listener_arn : String) (vpc_id : StrOrOutput)
    (host_condition : String) (subnets : List String) (container_port : Int) :
    Except String Unit :=
  match vpc_id with
  | .output => .ok ()
  | .known v =>
    if listener_arn.isEmpty then .error "Listener ARN must be a non-empty string"
    else if v.isEmpty then .error "VPC ID must be a non-empty string"
    else if host_condition.isEmpty then .error "Host condition must be a non-empty string"
    else if subnets.isEmpty then .error "Subnets must be a non-empty list"
    else if container_port ≤ 0 || container_port > 65535 then
      .error "Container port must be a valid port number"
    else .ok ()

/-- `true` exactly when the validator did not raise. -/
def isOk {α : Type} : Except String α → Bool
  | .ok _ => true
  | .error _ => false

/-! ## CIDR parsing (`ipaddress.ip_network` as used by `vpc.py`)

`VPC._validate_inputs` calls the Python standard library's
`ipaddress.ip_network` on the caller-supplied string.  The functions
below model that library call for the IPv4 `a.b.c.d/p` (and bare
`a.b.c.d`) input shapes the repository uses: four decimal octets without
leading zeroes, each at most 255, an optional decimal prefix at most 32,
and — because `ip_network` defaults to `strict=True` — all host bits of
the address must be zero. -/

/-- Split a character list at every occurrence of `sep`. -/
def splitOnChar (sep : Char) : List Char → List (List Char)
  | [] => [[]]
  | x :: xs =>
    let rest := splitOnChar sep xs
    if x = sep then [] :: rest
    else
      match rest with
      | [] => [[x]]
      | r :: rs => (x :: r) :: rs

/-- Decimal value of a digit list (callers check the digits first). -/
def digitsToNat (l : List Char) : Nat :=
  l.foldl (fun a c => a * 10 + (c.toNat - 48)) 0

/-- One dotted-quad octet: 1–3 decimal digits, no leading zero, ≤ 255. -/
def parseOctet (l : List Char) : Option Nat :=
  if l.isEmpty || !l.all Char.isDigit || l.length > 3 then none
  else if l.length > 1 && l.headD ' ' == '0' then none
  else
    let v := digitsToNat l
    if v > 255 then none else some v

/-- The prefix length after the slash: decimal digits, value ≤ 32. -/
def parsePrefixLen (l : List Char) : Option Nat :=
  if l.isEmpty || !l.all Char.isDigit then none
  else
    let v := digitsToNat l
    if v > 32 then none else some v

/-- Dotted-quad address to its 32-bit value. -/
def parseDottedQuad (l : List Char) : Option Nat :=
  match splitOnChar '.' l with
  | [a, b, c, d] =>
    match parseOctet a, parseOctet b, parseOctet c, parseOctet d with
    | some a, some b, some c, some d => some (((a * 256 + b) * 256 + c) * 256 + d)
    | _, _, _, _ => none
  | _ => none

/-- `ipaddress.ip_network(s)` on an IPv4 string: returns the address value
and prefix length, or `none` when the string is unparsable or (strict
mode) has non-zero host bits.  A string without a slash gets prefix 32. -/
def ipNetwork (s : String) : Option (Nat × Nat) :=
  match splitOnChar '/' s.data with
  | [addr] => (parseDottedQuad addr).map (fun ip => (ip, 32))
  | [addr, pre] =>
    match parseDottedQuad addr, parsePrefixLen pre with
    | some ip, some p => if ip % 2 ^ (32 - p) = 0 then some (ip, p) else none
    | _, _ => none
  | _ => none

/-- The acceptance condition of `VPC._validate_inputs` on the CIDR
argument: parses as a network and has prefix length within 16–24. -/
def cidrAccepted (s : String) : Bool :=
  match ipNetwork s with
  | some (_, p) => decide (16 ≤ p) && decide (p ≤ 24)
  | none => false

/-- `VPC._validate_inputs`: name must be a non-empty string (no regex
check here), then the CIDR must parse and have prefix length 16–24; both
the parse failure and the range failure are re-raised as
`"Invalid CIDR block: ..."`. -/
def validateVPC (name cidr_block : String) : Except String Unit :=
  if name.isEmpty then .error "Name must be a non-empty string"
  else
    match ipNetwork cidr_block with
    | none => .error "Invalid CIDR block: unparsable"
    | some (_, p) =>
      if p < 16 || p > 24 then
        .error "Invalid CIDR block: CIDR block must be between /16 and /24"
      else .ok ()

/-! ## Tag dictionaries

One definition per `tags={...}` literal appearing in the cited source
locations.  `stack` stands for the value of `pulumi.get_stack()`. -/

/-- Tags of the `ec2.Vpc` resource in `VPC._create_vpc`. -/
def vpcTags (name stack : String) : Tags :=
  [("Owner", "Dijam"), ("Project", "Numeris"), ("CostCenter", "1234"),
   ("Name", name ++ "-vpc"), ("Environment", stack), ("ManagedBy", "Pulumi")]

/-- Tags of public subnet `i` in `VPC._create_subnets` (note `Type`, and
no `ManagedBy`). -/
def publicSubnetTags (name stack : String) (i : Nat) : Tags :=
  [("Owner", "Dijam"), ("Project", "Numeris"), ("CostCenter", "1234"),
   ("Name", name ++ "-public-subnet-az" ++ toString (i + 1)),
   ("Environment", stack), ("Type", "Public")]

/-- Tags of private subnet `i` in `VPC._create_subnets`. -/
def privateSubnetTags (name stack : String) (i : Nat) : Tags :=
  [("Owner", "Dijam"), ("Project", "Numeris"), ("CostCenter", "1234"),
   ("Name", name ++ "-private-subnet-az" ++ toString (i + 1)),
   ("Environment", stack), ("Type", "Private")]

/-- Tags of the `lb.LoadBalancer` resource in
`ApplicationLoadBalancer._create_load_balancer`. -/
def albLoadBalancerTags (name stack : String) : Tags :=
  [("Name", name ++ "-alb"), ("Environment", stack), ("ManagedBy", "Pulumi")]

/-- Tags of the `iam.Policy` resource in `IAMPolicy._create_policy`. -/
def iamPolicyTags (name stack : String) : Tags :=
  [("Name", name ++ "-policy"), ("Environment", stack), ("ManagedBy", "Pulumi")]

/-- The literal part of the tag dictionary in
`SecurityGroup._create_security_group`, before `**(tags or {})`. -/
def sgBaseTags (name stack : String) : Tags :=
  [("Owner", "Dijam"), ("Project", "Numeris"), ("CostCenter", "1234"),
   ("Name", name ++ "-sg"), ("Environment", stack), ("ManagedBy", "Pulumi")]

/-- Full tag dictionary of the security group: the literal keys merged
with the caller-supplied `tags` (`{**base, **(tags or {})}`). -/
def sgTags (name stack : String) (caller : Tags) : Tags :=
  dictMerge (sgBaseTags name stack) caller

/-- The literal part of the tag dictionary in
`EC2Instance._create_instance` (only three base keys here). -/
def ec2BaseTags (name stack : String) : Tags :=
  [("Name", name ++ "-instance"), ("Environment", stack), ("ManagedBy", "Pulumi")]

/-- Full tag dictionary of the EC2 instance. -/
def ec2Tags (name stack : String) (caller : Tags) : Tags :=
  dictMerge (ec2BaseTags name stack) caller

/-! ## The VPC declaration (`VPC.__init__` and helpers) -/

/-- Kinds of provider resources the `VPC` component can declare.
`vpcEndpoint` is listed to state its absence from the declaration. -/
inductive VpcResourceKind where
  | vpc
  | subnet
  | internetGateway
  | eip
  | natGateway
  | routeTable
  | routeTableAssociation
  | vpcEndpoint
  deriving DecidableEq, Repr

/-- One subnet as declared by `VPC._create_subnets`. -/
structure SubnetSpec where
  resName : String
  cidrBlock : String
  mapPublicIpOnLaunch : Bool
  availabilityZone : String
  tags : Tags
  deriving DecidableEq, Repr

/-- The two public subnets of `VPC._create_subnets`: hard-coded
`10.0.{i+1}.0/24` blocks in availability zones `{region}a`, `{region}b`. -/
def publicSubnets (name region stack : String) : List SubnetSpec :=
  (List.range 2).map (fun i =>
    { resName := name ++ "-public-subnet-az" ++ toString (i + 1)
      cidrBlock := "10.0." ++ toString (i + 1) ++ ".0/24"
      mapPublicIpOnLaunch := true
      availabilityZone := region ++ (["a", "b"].getD i "")
      tags := publicSubnetTags name stack i })

/-- The two private subnets of `VPC._create_subnets`: hard-coded
`10.0.{i+3}.0/24` blocks in availability zones `{region}a`, `{region}b`. -/
def privateSubnets (name region stack : String) : List SubnetSpec :=
  (List.range 2).map (fun i =>
    { resName := name ++ "-private-subnet-az" ++ toString (i + 1)
      cidrBlock := "10.0." ++ toString (i + 3) ++ ".0/24"
      mapPublicIpOnLaunch := false
      availabilityZone := region ++ (["a", "b"].getD i "")
      tags := privateSubnetTags name stack i })

/-- Target of a route table's default route. -/
inductive RouteTarget where
  | internetGateway
  | natGateway
  deriving DecidableEq, Repr

/-- One route entry of a route table. -/
structure RouteSpec where
  cidr : String
  target : RouteTarget
  deriving DecidableEq, Repr

/-- One route table as declared by `VPC._create_route_tables`. -/
structure RouteTableSpec where
  resName : String
  routes : List RouteSpec
  tags : Tags
  deriving DecidableEq, Repr

/-- The public route table: a single `0.0.0.0/0` route to the internet
gateway. -/
def publicRouteTable (name stack : String) : RouteTableSpec :=
  { resName := name ++ "-public-rt"
    routes := [{ cidr := "0.0.0.0/0", target := .internetGateway }]
    tags := [("Owner", "Dijam"), ("Project", "Numeris"), ("CostCenter", "1234"),
             ("Name", name ++ "-public-rt"), ("Environment", stack),
             ("Type", "Public")] }

/-- The private route table: a single `0.0.0.0/0` route to the NAT
gateway. -/
def privateRouteTable (name stack : String) : RouteTableSpec :=
  { resName := name ++ "-private-rt"
    routes := [{ cidr := "0.0.0.0/0", target := .natGateway }]
    tags := [("Owner", "Dijam"), ("Project", "Numeris"), ("CostCenter", "1234"),
             ("Name", name ++ "-private-rt"), ("Environment", stack),
             ("Type", "Private")] }

/-- One `ec2.RouteTableAssociation` of `VPC._associate_route_tables`:
association resource name, subnet resource name, route-table resource
name. -/
structure AssociationSpec where
  resName : String
  subnetName : String
  routeTableName : String
  deriving DecidableEq, Repr

/-- `VPC._associate_route_tables`: each public subnet is associated with
the public route table, each private subnet with the private one. -/
def vpcAssociations (name region stack : String) : List AssociationSpec :=
  ((publicSubnets name region stack).enum.map (fun p =>
    { resName := name ++ "-public-rta-az" ++ toString (p.1 + 1)
      subnetName := p.2.resName
      routeTableName := name ++ "-public-rt" })) ++
  ((privateSubnets name region stack).enum.map (fun p =>
    { resName := name ++ "-private-rta-az" ++ toString (p.1 + 1)
      subnetName := p.2.resName
      routeTableName := name ++ "-private-rt" }))

/-- The sequence of provider resources declared by `VPC.__init__`, in
program order: the VPC itself, two public and two private subnets, the
internet gateway, the NAT elastic IP and NAT gateway, the two route
tables, and the four route-table associations. -/
def vpcDeclaredResources (name region stack : String) :
    List (VpcResourceKind × String) :=
  [(.vpc, name ++ "-vpc")] ++
  (publicSubnets name region stack).map (fun s => (.subnet, s.resName)) ++
  (privateSubnets name region stack).map (fun s => (.subnet, s.resName)) ++
  [(.internetGateway, name ++ "-igw"),
   (.eip, name ++ "-nat-eip"),
   (.natGateway, name ++ "-nat-gw"),
   (.routeTable, (publicRouteTable name stack).resName),
   (.routeTable, (privateRouteTable name stack).resName)] ++
  (vpcAssociations name region stack).map (fun a => (.routeTableAssociation, a.resName))

/-! ## The ALB declaration (`ApplicationLoadBalancer.__init__`) -/

/-- The provider resources the ALB component declares after validation. -/
inductive AlbResource where
  | loadBalancer
  | httpsListener
  | httpListener
  deriving DecidableEq, Repr

/-- `ApplicationLoadBalancer.__init__`: validates first, and only when
validation passes declares the load balancer and the two listeners; a
validation failure is re-wrapped and nothing is declared. -/
def albDeclare (vpc_id : StrOrOutput) (subnets : List String)
    (certificate_arn alb_security_group_id : String) :
    Except String (List AlbResource) :=
  match validateALB vpc_id subnets certificate_arn alb_security_group_id with
  | .error e => .error ("Failed to create Application Load Balancer: " ++ e)
  | .ok _ => .ok [.loadBalancer, .httpsListener, .httpListener]

/-! ## Listener-rule priorities (`HostBasedALBTargetGroup`) -/

/-- Initial value of the class-level `_priority_counter` in `tg.py`. -/
def tgInitialCounter : Nat := 1

/-- `_create_listener_rule`: reads the class counter as the rule's
priority and increments the counter (returns `(priority, new counter)`). -/
def assignPriority (counter : Nat) : Nat × Nat :=
  (counter, counter + 1)

/-- Priorities handed out by `n` sequential `HostBasedALBTargetGroup`
declarations starting from counter value `c`. -/
def runTargetGroupDeclarations : Nat → Nat → List Nat
  | 0, _ => []
  | Nat.succ k, c =>
    (assignPriority c).1 :: runTargetGroupDeclarations k (assignPriority c).2

/-- Priorities of `n` sequential declarations in a fresh process. -/
def prioritiesFromFreshProcess (n : Nat) : List Nat :=
  runTargetGroupDeclarations n tgInitialCounter

/-! ## Concrete sample inputs used in witnesses and counterexamples -/

/-- The ingress rule of end-to-end scenario 2 of the spec:
`{protocol: tcp, from_port: 443, to_port: 443, cidr_block: "0.0.0.0/0"}`. -/
def sampleCidrRule : IngressRule :=
  { security_group_id := none, cidr_block := some "0.0.0.0/0"
    protocol := some "tcp", from_port := some 443, to_port := some 443 }

/-- A rule dictionary carrying both `security_group_id` and `cidr_block`. -/
def bothSourcesRule : IngressRule :=
  { security_group_id := some "sg-12345", cidr_block := some "10.0.0.0/16"
    protocol := none, from_port := some 443, to_port := some 443 }

/-- A rule dictionary carrying neither `security_group_id` nor
`cidr_block`. -/
def noSourceRule : IngressRule :=
  { security_group_id := none, cidr_block := none
    protocol := none, from_port := some 443, to_port := some 443 }

/-! ## Helper lemmas -/

theorem lookupTag_eq_none_of_not_mem (e : Tags) (k : String)
    (h : k ∉ e.map Prod.fst) : lookupTag e k = none := by
  induction e with
  | nil => rfl
  | cons hd tl ih =>
    simp only [List.map_cons, List.mem_cons, not_or] at h
    simp only [lookupTag]
    rw [if_neg (fun hk => h.1 hk.symm)]
    exact ih h.2

theorem lookupTag_map_replace (d : Tags) (k v : String)
    (h : d.any (fun p => p.1 = k) = true) :
    lookupTag (d.map (fun p => if p.1 = k then (k, v) else p)) k = some v := by
  induction d with
  | nil => simp at h
  | cons hd tl ih =>
    by_cases hk : hd.1 = k
    · simp only [List.map_cons]
      rw [if_pos hk]
      simp [lookupTag]
    · simp only [List.any_cons, Bool.or_eq_true, decide_eq_true_eq] at h
      have h' : tl.any (fun p => p.1 = k) = true := by
        rcases h with h | h
        · exact absurd h hk
        · exact h
      simp only [List.map_cons]
      rw [if_neg hk]
      simp only [lookupTag]
      rw [if_neg hk]
      exact ih h'

theorem lookupTag_append_single (d : Tags) (k v : String)
    (h : d.any (fun p => p.1 = k) = false) :
    lookupTag (d ++ [(k, v)]) k = some v := by
  induction d with
  | nil => simp [lookupTag]
  | cons hd tl ih =>
    simp only [List.any_cons, Bool.or_eq_false_iff, decide_eq_false_iff_not] at h
    simp only [List.cons_append, lookupTag, if_neg h.1]
    exact ih (by simpa using h.2)

theorem lookupTag_dictInsert_self (d : Tags) (k v : String) :
    lookupTag (dictInsert d k v) k = some v := by
  unfold dictInsert
  by_cases h : d.any (fun p => p.1 = k) = true
  · rw [if_pos h]; exact lookupTag_map_replace d k v h
  · rw [if_neg h]
    exact lookupTag_append_single d k v (Bool.eq_false_iff.mpr h)

theorem lookupTag_map_replace_ne (d : Tags) (k v k' : String) (h : k' ≠ k) :
    lookupTag (d.map (fun p => if p.1 = k then (k, v) else p)) k'
      = lookupTag d k' := by
  induction d with
  | nil => rfl
  | cons hd tl ih =>
    by_cases hk : hd.1 = k
    · simp only [List.map_cons]
      rw [if_pos hk]
      simp only [lookupTag]
      rw [if_neg (fun he : k = k' => h he.symm),
          if_neg (fun he : hd.1 = k' => h (he.symm.trans hk))]
      exact ih
    · simp only [List.map_cons]
      rw [if_neg hk]
      simp only [lookupTag]
      by_cases hk' : hd.1 = k'
      · rw [if_pos hk', if_pos hk']
      · rw [if_neg hk', if_neg hk']
        exact ih

theorem lookupTag_append_single_ne (d : Tags) (k v k' : String) (h : k' ≠ k) :
    lookupTag (d ++ [(k, v)]) k' = lookupTag d k' := by
  induction d with
  | nil =>
    simp only [List.nil_append, lookupTag]
    rw [if_neg (fun he : k = k' => h he.symm)]
  | cons hd tl ih =>
    simp only [List.cons_append, lookupTag]
    by_cases hk' : hd.1 = k'
    · rw [if_pos hk', if_pos hk']
    · rw [if_neg hk', if_neg hk']
      exact ih

theorem lookupTag_dictInsert_ne (d : Tags) (k v k' : String) (h : k' ≠ k) :
    lookupTag (dictInsert d k v) k' = lookupTag d k' := by
  unfold dictInsert
  by_cases hm : d.any (fun p => p.1 = k) = true
  · rw [if_pos hm]
    exact lookupTag_map_replace_ne d k v k' h
  · rw [if_neg hm]
    exact lookupTag_append_single_ne d k v k' h

theorem lookupTag_dictMerge (d e : Tags) (he : (e.map Prod.fst).Nodup)
    (k : String) :
    lookupTag (dictMerge d e) k = (lookupTag e k).or (lookupTag d k) := by
  induction e generalizing d with
  | nil => simp [dictMerge, lookupTag, Option.or]
  | cons hd tl ih =>
    obtain ⟨k₀, v₀⟩ := hd
    simp only [List.map_cons, List.nodup_cons] at he
    have step : dictMerge d ((k₀, v₀) :: tl) = dictMerge (dictInsert d k₀ v₀) tl := rfl
    rw [step, ih (dictInsert d k₀ v₀) he.2]
    by_cases hk : k = k₀
    · subst hk
      rw [lookupTag_eq_none_of_not_mem tl k he.1]
      simp only [lookupTag, if_pos rfl, Option.or]
      exact lookupTag_dictInsert_self d k v₀
    · rw [lookupTag_dictInsert_ne d k₀ v₀ k hk]
      simp only [lookupTag]
      rw [if_neg (fun g : k₀ = k => hk g.symm)]

theorem append_a_ne_append_b (r : String) : r ++ "a" ≠ r ++ "b" := by
  intro h
  have h2 : r.data ++ ("a" : String).data = r.data ++ ("b" : String).data := by
    rw [← String.data_append, ← String.data_append, h]
  have h3 := List.append_cancel_left h2
  exact absurd h3 (by decide)

theorem runTargetGroupDeclarations_eq_range' (n : Nat) :
    ∀ c, runTargetGroupDeclarations n c = List.range' c n := by
  induction n with
  | zero => intro c; rfl
  | succ k ih =>
    intro c
    simp only [runTargetGroupDeclarations, assignPriority, List.range']
    exact congrArg _ (ih (c + 1))

/-! ## Claim C1 -/

/-- C1, counterexample.  The claim says an ingress rule supplying both
`security_group_id` and `cidr_block`, or neither, is rejected with a
validation error.  In `_format_ingress_rules` a rule with both keys is
accepted and normalized through the `security_group_id` branch, and a
dictionary with neither key is accepted and silently dropped. -/
theorem c1_both_or_neither_not_rejected :
    formatIngressRules [RawRule.dict bothSourcesRule] =
      .ok [{ protocol := "tcp", from_port := some 443, to_port := some 443
             security_groups := some ["sg-12345"], cidr_blocks := none }]
    ∧ formatIngressRules [RawRule.dict noSourceRule] = .ok [] :=
  ⟨rfl, rfl⟩

/-- C1, amended.  For every ingress rule dictionary: a rule supplying
`security_group_id` (alone or together with `cidr_block`) is normalized
into a `security_groups` singleton; a rule supplying only `cidr_block`
is normalized into a `cidr_blocks` singleton; in both cases the protocol
defaults to `"tcp"` when omitted.  A dictionary supplying neither key is
not rejected but silently dropped from the formatted list, and only a
non-dictionary rule raises a validation error. -/
theorem c1_ingress_rule_normalization (r : IngressRule) :
    (∀ g, r.security_group_id = some g →
      formatIngressRules [RawRule.dict r] =
        .ok [{ protocol := r.protocol.getD "tcp", from_port := r.from_port
               to_port := r.to_port, security_groups := some [g]
               cidr_blocks := none }])
    ∧ (∀ c, r.security_group_id = none → r.cidr_block = some c →
      formatIngressRules [RawRule.dict r] =
        .ok [{ protocol := r.protocol.getD "tcp", from_port := r.from_port
               to_port := r.to_port, security_groups := none
               cidr_blocks := some [c] }])
    ∧ (r.security_group_id = none → r.cidr_block = none →
      formatIngressRules [RawRule.dict r] = .ok [])
    ∧ formatIngressRules [RawRule.nonDict] =
        .error "Ingress rule must be a dictionary containing security_group_id or cidr_block" := by
  refine ⟨?_, ?_, ?_, rfl⟩
  · intro g hg
    simp [formatIngressRules, formatRule, hg, Except.map]
  · intro c hg hc
    simp [formatIngressRules, formatRule, hg, hc, Except.map]
  · intro hg hc
    simp [formatIngressRules, formatRule, hg, hc, Except.map]

/-- C1, witness: the spec's scenario-2 rule (`cidr_block` only) is
normalized into a single `cidr_blocks=["0.0.0.0/0"]` entry. -/
theorem c1_ingress_rule_normalization_witness :
    formatIngressRules [RawRule.dict sampleCidrRule] =
      .ok [{ protocol := "tcp", from_port := some 443, to_port := some 443
             security_groups := none, cidr_blocks := some ["0.0.0.0/0"] }] :=
  (c1_ingress_rule_normalization sampleCidrRule).2.1 "0.0.0.0/0" rfl rfl

/-! ## Claim C2 -/

/-- C2, counterexample.  The claim says that when one parameter is an
unresolved `pulumi.Output`, only that parameter is exempt from eager
validation while synchronously known parameters (an empty name, an empty
ingress list) are still rejected.  In fact the validators return
immediately: with `vpc_id` (resp. `subnet_id`) an Output, an empty name
and empty rule lists pass validation. -/
theorem c2_output_skips_all_validation_counterexample :
    validateSecurityGroup "" StrOrOutput.output [] [] = .ok ()
    ∧ validateEC2Instance "" "" "" StrOrOutput.output [] = .ok ()
    ∧ validateRDS "" StrOrOutput.output [] "" "" = .ok () :=
  ⟨rfl, rfl, rfl⟩

/-- C2, amended.  When the single guard parameter (`vpc_id` for
SecurityGroup, RDS, ApplicationLoadBalancer and HostBasedALBTargetGroup;
`subnet_id` for EC2Instance) is an unresolved Output, the validator
returns immediately and ALL eager validation is skipped — every other
parameter, however invalid, is accepted at declaration time. -/
theorem c2_output_skips_all_validation
    (name ami itype arn host db user : String)
    (ingress : List RawRule) (egress : List Unit)
    (sgids subnets psubnets : List String) (port : Int) :
    validateSecurityGroup name StrOrOutput.output ingress egress = .ok ()
    ∧ validateEC2Instance name ami itype StrOrOutput.output sgids = .ok ()
    ∧ validateRDS name StrOrOutput.output psubnets db user = .ok ()
    ∧ validateALB StrOrOutput.output subnets arn name = .ok ()
    ∧ validateTargetGroup arn StrOrOutput.output host subnets port = .ok () :=
  ⟨rfl, rfl, rfl, rfl, rfl⟩

/-! ## Claim C3 -/

/-- C3, counterexample.  The claim says every constructor rejects any
synchronously known name containing a character outside `[A-Za-z0-9-]`.
The VPC validator only checks non-emptiness: the name `"my_vpc"`
(underscore) fails the pattern yet is accepted. -/
theorem c3_vpc_accepts_underscore_name :
    nameRegexMatches "my_vpc" = false
    ∧ validateVPC "my_vpc" "10.0.0.0/16" = .ok () :=
  ⟨by decide, rfl⟩

/-- C3, amended.  Only the constructors that apply the
`^[a-zA-Z0-9-]+$` regex (SecurityGroup, EC2Instance) accept exactly the
non-empty names matching it and reject all others; the VPC and RDS
validators accept any non-empty name, including names with characters
outside the set (all other inputs held valid and synchronously known). -/
theorem c3_name_validation_varies (s : String) :
    isOk (validateSecurityGroup s (StrOrOutput.known "vpc-1")
        [RawRule.dict sampleCidrRule] [()]) = nameRegexMatches s
    ∧ isOk (validateEC2Instance s "ami-123" "t3-micro"
        (StrOrOutput.known "subnet-1") ["sg-1"]) = nameRegexMatches s
    ∧ isOk (validateVPC s "10.0.0.0/16") = !s.isEmpty
    ∧ isOk (validateRDS s (StrOrOutput.known "vpc-1") ["subnet-1"]
        "mydatabase" "admin") = !s.isEmpty := by
  refine ⟨?_, ?_, ?_, ?_⟩
  · by_cases he : s.isEmpty
    · simp [validateSecurityGroup, isOk, nameRegexMatches, he]
    · by_cases hm : nameRegexMatches s
      · simp [validateSecurityGroup, isOk, he, hm]
        all_goals rfl
      · simp [validateSecurityGroup, isOk, he, hm]
  · by_cases he : s.isEmpty
    · simp [validateEC2Instance, isOk, nameRegexMatches, he]
    · by_cases hm : nameRegexMatches s
      · simp [validateEC2Instance, isOk, he, hm]
        all_goals rfl
      · simp [validateEC2Instance, isOk, he, hm]
  · have hnet : ipNetwork "10.0.0.0/16" = some (167772160, 16) := rfl
    by_cases he : s.isEmpty
    · simp [validateVPC, isOk, he]
    · simp [validateVPC, isOk, he, hnet]
  · by_cases he : s.isEmpty
    · simp [validateRDS, isOk, he]
    · simp [validateRDS, isOk, he]
      all_goals rfl

/-! ## Claim C4 -/

/-- C4, counterexample.  The claim says the VPC declaration also creates
a gateway-type VPC endpoint for object storage; no resource of that kind
appears in the declaration sequence of `VPC.__init__`. -/
theorem c4_no_vpc_endpoint_declared :
    VpcResourceKind.vpcEndpoint ∉
      (vpcDeclaredResources "main" "us-east-1" "dev").map Prod.fst := by
  decide

/-- C4, amended.  The VPC declaration creates exactly: the network, two
public and two private subnets, an internet gateway, a NAT elastic IP,
a NAT gateway, two route tables and four route-table associations — and
no VPC endpoint of any kind. -/
theorem c4_vpc_declared_resource_kinds (name region stack : String) :
    (vpcDeclaredResources name region stack).map Prod.fst =
      [.vpc, .subnet, .subnet, .subnet, .subnet, .internetGateway, .eip,
       .natGateway, .routeTable, .routeTable, .routeTableAssociation,
       .routeTableAssociation, .routeTableAssociation, .routeTableAssociation]
    ∧ VpcResourceKind.vpcEndpoint ∉
        (vpcDeclaredResources name region stack).map Prod.fst := by
  have h1 : (vpcDeclaredResources name region stack).map Prod.fst =
      [.vpc, .subnet, .subnet, .subnet, .subnet, .internetGateway, .eip,
       .natGateway, .routeTable, .routeTable, .routeTableAssociation,
       .routeTableAssociation, .routeTableAssociation, .routeTableAssociation] := rfl
  refine ⟨h1, ?_⟩
  rw [h1]
  decide

/-! ## Claim C5 -/

/-- C5, counterexample.  The claim says every declared resource carries
the full base tag set `{Owner, Project, CostCenter, Name, Environment,
ManagedBy}`.  The ALB's load balancer carries no `Owner` key, and the
VPC's subnets carry no `ManagedBy` key. -/
theorem c5_base_tags_not_universal :
    lookupTag (albLoadBalancerTags "app" "dev") "Owner" = none
    ∧ lookupTag (publicSubnetTags "app" "dev" 0) "ManagedBy" = none :=
  ⟨rfl, rfl⟩

/-- C5, amended.  The tag set varies by resource: the VPC resource
carries the full base set, the ALB load balancer and the IAM policy carry
only `{Name, Environment, ManagedBy}`, and the subnets replace
`ManagedBy` with a `Type` key.  Wherever tags are present, the `Name`
tag is `{base-name}-{resource-suffix}` and `Environment` is the current
stack identifier. -/
theorem c5_tag_sets_by_component (name stack : String) :
    (vpcTags name stack).map Prod.fst =
      ["Owner", "Project", "CostCenter", "Name", "Environment", "ManagedBy"]
    ∧ lookupTag (vpcTags name stack) "Name" = some (name ++ "-vpc")
    ∧ lookupTag (vpcTags name stack) "Environment" = some stack
    ∧ (albLoadBalancerTags name stack).map Prod.fst =
        ["Name", "Environment", "ManagedBy"]
    ∧ lookupTag (albLoadBalancerTags name stack) "Name" = some (name ++ "-alb")
    ∧ lookupTag (albLoadBalancerTags name stack) "Environment" = some stack
    ∧ (iamPolicyTags name stack).map Prod.fst =
        ["Name", "Environment", "ManagedBy"]
    ∧ lookupTag (iamPolicyTags name stack) "Name" = some (name ++ "-policy")
    ∧ (publicSubnetTags name stack 0).map Prod.fst =
        ["Owner", "Project", "CostCenter", "Name", "Environment", "Type"]
    ∧ lookupTag (publicSubnetTags name stack 0) "Environment" = some stack :=
  ⟨rfl, rfl, rfl, rfl, rfl, rfl, rfl, rfl, rfl, rfl⟩

/-! ## Claim C6 -/

/-- C6, confirmed.  For a VPC declared with CIDR `10.0.0.0/16` (an
accepted input), the declaration yields exactly two public and two
private subnets, each with a `/24` CIDR block, placed in two distinct
availability zones (`{region}a` and `{region}b`); the public route
table routes `0.0.0.0/0` to the internet gateway and the private route
table routes `0.0.0.0/0` to the NAT gateway, and each subnet is
associated with its respective route table. -/
theorem c6_vpc_network_layout (name region stack : String) :
    cidrAccepted "10.0.0.0/16" = true
    ∧ (publicSubnets name region stack).length = 2
    ∧ (privateSubnets name region stack).length = 2
    ∧ (publicSubnets name region stack).map (fun s => s.cidrBlock) =
        ["10.0.1.0/24", "10.0.2.0/24"]
    ∧ (privateSubnets name region stack).map (fun s => s.cidrBlock) =
        ["10.0.3.0/24", "10.0.4.0/24"]
    ∧ ((publicSubnets name region stack ++ privateSubnets name region stack).map
        (fun s => (ipNetwork s.cidrBlock).map Prod.snd)) =
        [some 24, some 24, some 24, some 24]
    ∧ (publicSubnets name region stack).map (fun s => s.availabilityZone) =
        [region ++ "a", region ++ "b"]
    ∧ (privateSubnets name region stack).map (fun s => s.availabilityZone) =
        [region ++ "a", region ++ "b"]
    ∧ region ++ "a" ≠ region ++ "b"
    ∧ (publicRouteTable name stack).routes =
        [{ cidr := "0.0.0.0/0", target := .internetGateway }]
    ∧ (privateRouteTable name stack).routes =
        [{ cidr := "0.0.0.0/0", target := .natGateway }]
    ∧ (vpcAssociations name region stack).map
        (fun a => (a.subnetName, a.routeTableName)) =
        (publicSubnets name region stack).map
          (fun s => (s.resName, (publicRouteTable name stack).resName)) ++
        (privateSubnets name region stack).map
          (fun s => (s.resName, (privateRouteTable name stack).resName)) :=
  ⟨rfl, rfl, rfl, rfl, rfl, rfl, rfl, rfl, append_a_ne_append_b region,
   rfl, rfl, rfl⟩

/-- C6, witness: at a concrete region the two availability zones are
distinct. -/
theorem c6_vpc_network_layout_witness :
    ("us-east-1" : String) ++ "a" ≠ "us-east-1" ++ "b" :=
  (c6_vpc_network_layout "main" "us-east-1" "dev").2.2.2.2.2.2.2.2.1

/-! ## Claim C7 -/

/-- C7, confirmed.  Starting from a fresh process (class counter at 1),
the first `HostBasedALBTargetGroup` declaration's listener rule gets
priority 1 and the second gets priority 2; in general `n` sequential
declarations receive priorities `[1, 2, ..., n]` (`List.range' 1 n`),
the `n`-th declaration receiving priority `n`, from a counter shared
across all instances of the class. -/
theorem c7_listener_rule_priorities :
    prioritiesFromFreshProcess 2 = [1, 2]
    ∧ ∀ n : Nat, prioritiesFromFreshProcess n = List.range' 1 n :=
  ⟨rfl, fun n => runTargetGroupDeclarations_eq_range' n 1⟩

/-! ## Claim C8 -/

/-- C8, confirmed.  Tag merging (`{**base, **(tags or {})}`) gives
caller-supplied tags precedence: for every key the caller defines, the
merged dictionary holds the caller's value (so a base/resource `Name`
is overridden by a caller `Name`), and for keys the caller does not
define, the base/resource value survives.  The merge is a pure function
of its inputs.  Shown for the SecurityGroup and EC2Instance tag
dictionaries, the two cited call sites. -/
theorem c8_caller_tags_take_precedence (name stack : String) (caller : Tags)
    (h : (caller.map Prod.fst).Nodup) (k : String) :
    lookupTag (sgTags name stack caller) k =
      (lookupTag caller k).or (lookupTag (sgBaseTags name stack) k)
    ∧ lookupTag (ec2Tags name stack caller) k =
      (lookupTag caller k).or (lookupTag (ec2BaseTags name stack) k) :=
  ⟨lookupTag_dictMerge (sgBaseTags name stack) caller h k,
   lookupTag_dictMerge (ec2BaseTags name stack) caller h k⟩

/-- C8, witness: a caller tag `Name="y"` overrides the resource-derived
`Name="web-sg"` in the merged security-group tags. -/
theorem c8_caller_tags_take_precedence_witness :
    lookupTag (sgTags "web" "dev" [("Name", "y")]) "Name" = some "y" := by
  have h :=
    (c8_caller_tags_take_precedence "web" "dev" [("Name", "y")] (by decide) "Name").1
  rw [h]
  rfl

/-! ## Claim C9 -/

/-- C9, confirmed.  The VPC CIDR input is parsed as a network and
accepted exactly when it parses and its prefix length `p` satisfies
`16 ≤ p ≤ 24`: `/16` and `/24` are accepted, `/15` and `/25` are
rejected, and an unparsable string is rejected. -/
theorem c9_cidr_prefix_validation :
    (∀ name cidr, isOk (validateVPC name cidr) =
      (!name.isEmpty && cidrAccepted cidr))
    ∧ validateVPC "app" "10.0.0.0/16" = .ok ()
    ∧ validateVPC "app" "10.0.1.0/24" = .ok ()
    ∧ isOk (validateVPC "app" "10.0.0.0/15") = false
    ∧ isOk (validateVPC "app" "10.0.0.0/25") = false
    ∧ isOk (validateVPC "app" "not-a-cidr") = false := by
  refine ⟨?_, rfl, rfl, rfl, rfl, rfl⟩
  intro name cidr
  by_cases he : name.isEmpty
  · simp [validateVPC, isOk, he]
  · simp only [validateVPC, he, Bool.not_false, Bool.true_and, if_false]
    cases hn : ipNetwork cidr with
    | none => simp [cidrAccepted, hn, isOk]
    | some pr =>
      obtain ⟨ip, p⟩ := pr
      simp only [cidrAccepted, hn]
      by_cases hlo : p < 16
      · have h1 : ¬(16 ≤ p) := Nat.not_le.mpr hlo
        simp [hlo, isOk, h1]
      · by_cases hhi : p > 24
        · have h2 : ¬(p ≤ 24) := Nat.not_le.mpr hhi
          simp [hlo, hhi, isOk, h2]
        · have h3 : 16 ≤ p := Nat.not_lt.mp hlo
          have h4 : p ≤ 24 := Nat.not_lt.mp hhi
          simp [hlo, hhi, isOk, h3, h4]

/-! ## Claim C10 -/

/-- C10, confirmed.  With a synchronously known `vpc_id`, a subnets list
with fewer than two elements — including a non-empty single-element
list — makes the ApplicationLoadBalancer constructor fail validation,
and no load balancer or listener is declared. -/
theorem c10_alb_requires_two_subnets (v : String) (subnets : List String)
    (cert sg : String) (hv : v.isEmpty = false) (hs : subnets.length < 2) :
    albDeclare (StrOrOutput.known v) subnets cert sg =
      .error "Failed to create Application Load Balancer: At least two subnets are required" := by
  unfold albDeclare validateALB
  simp [hv, hs]

/-- C10, witness: a single-element subnet list is rejected. -/
theorem c10_alb_requires_two_subnets_witness :
    albDeclare (StrOrOutput.known "vpc-1") ["subnet-a"] "cert-arn" "sg-1" =
      .error "Failed to create Application Load Balancer: At least two subnets are required" :=
  c10_alb_requires_two_subnets "vpc-1" ["subnet-a"] "cert-arn" "sg-1" rfl
    (by decide)

end Numeris

